import Mathlib

/-!
Verification development for the ProxyServerHTTPS repository.

The repository is a forward HTTP/HTTPS relay written in Python.  The
pool-lifecycle and forwarding logic of `src/app.py` and
`src/working_https_proxy.py` is embedded shallowly below: network
interactions are abstracted into explicit oracle parameters (the raw text
an HTTP fetch would return, the outcome an outbound attempt would have,
the boolean a validation probe would report, the index a random choice
would select), and each Python function becomes a Lean function of those
oracles, translated line by line from the source.
-/

namespace ProxyServer

/-! ### String helpers

Python string primitives (`in`, `strip`, `split`, `lower`, slicing,
`startswith`) are modelled by structurally recursive functions over
`List Char` so that every definition evaluates by kernel reduction. -/

/-- Does `needle` occur as a contiguous run inside `haystack`?
Models Python `needle in haystack` for lists of characters. -/
def infixOfChars (needle : List Char) : List Char → Bool
  | [] => needle.isEmpty
  | c :: cs => needle.isPrefixOf (c :: cs) || infixOfChars needle cs

/-- Models Python `needle in haystack` on strings. -/
def strContains (haystack needle : String) : Bool :=
  infixOfChars needle.toList haystack.toList

/-- Models Python `s.startswith(p)`. -/
def startsWithStr (s p : String) : Bool :=
  p.toList.isPrefixOf s.toList

/-- Models Python `s.strip()`: drop leading and trailing whitespace. -/
def trimChars (s : String) : String :=
  String.mk ((((s.toList.dropWhile Char.isWhitespace).reverse.dropWhile
    Char.isWhitespace).reverse))

/-- Models Python `s.lower()` (ASCII case folding, which is all the
source ever feeds it). -/
def lowerStr (s : String) : String :=
  String.mk (s.toList.map Char.toLower)

/-- Models Python `content.split('\n')` on the character list of the
content: split at every newline, keeping empty pieces. -/
def splitOnNL : List Char → List (List Char)
  | [] => [[]]
  | c :: cs =>
    if c = '\n' then [] :: splitOnNL cs
    else
      match splitOnNL cs with
      | [] => [[c]]
      | line :: rest => (c :: line) :: rest

/-! ### ProxySource (`fetch_proxies_from_api`, `app.py` lines 36-65)

The one network effect — the body of the HTTP response from the listing
service, or a raised exception — is the parameter: `none` stands for any
exception during the fetch (network error, timeout, non-2xx raised by
urllib), `some raw` for a successful read of body text `raw`. -/

/-- Embeds `fetch_proxies_from_api` from `src/app.py`: on any exception
return `[]`; otherwise strip the body, split it into lines, strip each
line, keep exactly the lines that are non-empty and contain a colon,
and record each as `"http://" ++ line`. -/
def fetch_proxies_from_api (fetchResult : Option String) : List String :=
  match fetchResult with
  | none => []
  | some raw =>
    let content := trimChars raw
    (splitOnNL content.toList).filterMap (fun lc =>
      let line := trimChars (String.mk lc)
      if line ≠ "" ∧ line.toList.contains ':' then
        some ("http://" ++ line)
      else none)

/-- Embeds `fetch_proxies` from `src/working_https_proxy.py` lines 60-77:
same parse, but only the first 10 lines are considered. -/
def fetch_proxies (fetchResult : Option String) : List String :=
  match fetchResult with
  | none => []
  | some raw =>
    let content := trimChars raw
    ((splitOnNL content.toList).take 10).filterMap (fun lc =>
      let line := trimChars (String.mk lc)
      if line ≠ "" ∧ line.toList.contains ':' then
        some ("http://" ++ line)
      else none)

/-! ### ProxyValidator (`validate_proxy`, `app.py` lines 67-84) -/

/-- What the probe request through a candidate proxy observes: either a
response object with some status, or an exception of any kind (connect
refused, timeout, TLS failure, or the `HTTPError` urllib raises on a
non-2xx status). -/
inductive ProbeOutcome
  | response (status : Nat)
  | exn
  deriving DecidableEq

/-- Embeds `validate_proxy` from `src/app.py`: `True` exactly when the
probe opens a response whose status is 200; `False` on a non-200 status
and on every exception, which is caught and never propagated. -/
def validate_proxy : ProbeOutcome → Bool
  | .response s => s == 200
  | .exn => false

/-! ### Pool refresh (`get_working_proxies`, `update_proxy_pool`,
`app.py` lines 86-126)

The per-proxy network probe is abstracted into the oracle
`validates : String → Bool` (the value `validate_proxy` would return for
that proxy on this cycle). -/

/-- Embeds `get_working_proxies` from `src/app.py`: test the first
`max_to_test` proxies of the list in order (the loop breaks once
`tested >= max_to_test`, and `tested` counts every iteration), keeping
those that validate. -/
def get_working_proxies (validates : String → Bool)
    (proxy_list : List String) (max_to_test : Nat) : List String :=
  (proxy_list.take max_to_test).filter validates

/-- Embeds `update_proxy_pool` from `src/app.py`, with the global
`PROXY_POOL` passed in and the new value returned: fetch candidates; if
any, validate the first 100 and install the passers; if none pass,
install the first 50 candidates untested; if the fetch produced nothing,
keep the existing pool. -/
def update_proxy_pool (fetchResult : Option String)
    (validates : String → Bool) (pool : List String) : List String :=
  let new_proxies := fetch_proxies_from_api fetchResult
  if new_proxies ≠ [] then
    let working_proxies := get_working_proxies validates new_proxies 100
    if working_proxies ≠ [] then working_proxies
    else new_proxies.take 50
  else pool

/-! ### Pool read (`get_random_proxy`, `app.py` lines 144-148)

`random.choice` is abstracted into an arbitrary index `choiceIx`; on a
non-empty list Python's `random.choice` returns the element at some
index below the length, modelled here as `choiceIx % pool.length`. -/

/-- Embeds `get_random_proxy` from `src/app.py`: `None` when the pool is
empty, otherwise an element of the pool chosen by the random index. -/
def get_random_proxy (pool : List String) (choiceIx : Nat) : Option String :=
  if pool = [] then none
  else some (pool.getD (choiceIx % pool.length) "")

/-! ### ForwardingEngine (`forward_request`, `app.py` lines 165-240) -/

/-- Which route one attempt of `forward_request` takes for its outbound
request. -/
inductive Route
  | direct
  | viaProxy (p : String)
  deriving DecidableEq

/-- Embeds the route selection at the top of each `forward_request`
attempt (`src/app.py` lines 171-196): if `PROXY_POOL` is empty, go
direct; otherwise pick a proxy, and if the pick is falsy (`None` or the
empty string, per Python `if not proxy`), go direct as a second
fallback; otherwise use the picked proxy. -/
def attempt_route (pool : List String) (choiceIx : Nat) : Route :=
  if pool = [] then .direct
  else
    match get_random_proxy pool choiceIx with
    | none => .direct
    | some proxy => if proxy = "" then .direct else .viaProxy proxy

/-- What one outbound attempt of `forward_request` observes, matching
the `try`/`except` arms of `src/app.py` lines 170-237: a response read
without exception (status, headers, body), or one of the four caught
exception classes.  urllib raises `HTTPError code` whenever an HTTP
error status such as 404 or 500 is received from the upstream, so a
non-2xx status surfaces here as `httpError`, never as `ok`. -/
inductive AttemptOutcome
  | ok (status : Nat) (headers : List (String × String)) (body : List Nat)
  | httpError (code : Nat)
  | urlError
  | timeoutError
  | otherError
  deriving DecidableEq

/-- `True` on the four `except` arms, `False` on a response read without
exception. -/
def isFailure : AttemptOutcome → Bool
  | .ok _ _ _ => false
  | _ => true

/-- What the relay's own client receives from `forward_request`: either
the upstream response copied verbatim (`send_response`, each header,
body), or an error page with a status code (`send_error`). -/
inductive ClientResult
  | forwarded (status : Nat) (headers : List (String × String)) (body : List Nat)
  | errorSent (code : Nat)
  deriving DecidableEq

/-- Embeds the retry loop of `forward_request` (`src/app.py` lines
169-240) over the list of outcomes the successive attempts would
observe; `max_retries = 3`, so the loop is run on a list of exactly 3
outcomes.  Returns what the client receives and how many attempts were
made.  A response read without exception is copied verbatim and the
loop returns at once; each `except` arm sends an error only when
`attempt == max_retries - 1` (here: when no outcomes remain), with
`HTTPError` sending the upstream's code, `URLError` and `TimeoutError`
sending 504, and any other exception sending 500; otherwise the loop
just continues to the next attempt.  The `[]` case is unreachable when
the list has `max_retries > 0` elements. -/
def forward_request : List AttemptOutcome → ClientResult × Nat
  | [] => (.errorSent 500, 0)
  | o :: rest =>
    match o with
    | .ok s h b => (.forwarded s h b, 1)
    | .httpError c =>
      if rest = [] then (.errorSent c, 1)
      else ((forward_request rest).1, (forward_request rest).2 + 1)
    | .urlError =>
      if rest = [] then (.errorSent 504, 1)
      else ((forward_request rest).1, (forward_request rest).2 + 1)
    | .timeoutError =>
      if rest = [] then (.errorSent 504, 1)
      else ((forward_request rest).1, (forward_request rest).2 + 1)
    | .otherError =>
      if rest = [] then (.errorSent 500, 1)
      else ((forward_request rest).1, (forward_request rest).2 + 1)

/-- The retry cap of `forward_request` (`max_retries` in the source). -/
def max_retries : Nat := 3

/-! ### URL normalization (`normalize_url`,
`working_https_proxy.py` lines 95-109) -/

/-- The substrings the HTTPS heuristic of `normalize_url` looks for. -/
def https_sites : List String := ["google", "github", "facebook", "twitter"]

/-- The heuristic condition of `normalize_url`
(`any(site in path.lower() for site in [...])`): one of the four
substrings occurs anywhere in the lowercased path. -/
def https_heuristic (path : String) : Bool :=
  https_sites.any (fun site => strContains (lowerStr path) site)

/-- Embeds `normalize_url` from `src/working_https_proxy.py`: drop one
leading slash; if the path already starts with `http://` or `https://`,
keep it; otherwise prepend `https://` when any of the heuristic
substrings occurs anywhere in the lowercased path, else prepend
`http://`. -/
def normalize_url (path0 : String) : String :=
  let path := if startsWithStr path0 "/" then String.mk (path0.toList.drop 1)
              else path0
  if startsWithStr path "http://" || startsWithStr path "https://" then path
  else if https_heuristic path then
    "https://" ++ path
  else
    "http://" ++ path

/-- The host part of a scheme-less target URL: everything before the
first `/`.  Used only to state what the spec's phrase "the host matches
the documented HTTPS-heuristic host list" means on a concrete input. -/
def hostOf (path : String) : String :=
  String.mk (path.toList.takeWhile (fun c => c ≠ '/'))

/-- The characters `urllib.parse` accepts inside a URL scheme
(ASCII letters, digits, `+`, `-`, `.`). -/
def scheme_chars (c : Char) : Bool :=
  c.isAlpha || c.isDigit || c = '+' || c = '-' || c = '.'

/-- Embeds `validate_url` from `src/app.py` lines 154-163:
`urllib.parse.urlparse(url)` reports a non-empty scheme exactly when the
first colon of `url` sits at a positive index, the first character is an
ASCII letter, and everything before that colon is a scheme character;
the source prepends `http://` when the scheme is empty and returns the
URL unchanged otherwise.  (The `except` branch returning `None` is
unreachable: `urlparse` does not raise on `str` input.) -/
def validate_url (url : String) : String :=
  let l := url.toList
  let beforeColon := l.takeWhile (fun c => c ≠ ':')
  if l.contains ':' ∧ beforeColon ≠ [] ∧
      (beforeColon.headD ' ').isAlpha ∧ beforeColon.all scheme_chars then
    url
  else "http://" ++ url

/-! ### Helper lemmas -/

/-- A string obtained by prepending `p` starts with `p`. -/
lemma startsWithStr_append (p s : String) : startsWithStr (p ++ s) p = true := by
  cases p with
  | mk lp =>
    cases s with
    | mk ls =>
      show lp.isPrefixOf (lp ++ ls) = true
      simp [List.isPrefixOf_iff_prefix]

/-- A string that starts with `"http://"` is not empty. -/
lemma ne_empty_of_http (p : String) (h : startsWithStr p "http://" = true) :
    p ≠ "" := by
  intro hep
  rw [hep] at h
  exact absurd h (by decide)

/-- Every entry produced by `fetch_proxies_from_api` carries the
`"http://"` prefix added at parse time. -/
lemma fetch_proxies_from_api_prefixed (r : Option String) :
    ∀ p ∈ fetch_proxies_from_api r, startsWithStr p "http://" = true := by
  intro p hp
  cases r with
  | none => simp [fetch_proxies_from_api] at hp
  | some raw =>
    unfold fetch_proxies_from_api at hp
    simp only [List.mem_filterMap] at hp
    obtain ⟨lc, _, hf⟩ := hp
    split at hf
    · cases hf
      exact startsWithStr_append _ _
    · cases hf

/-- Every entry produced by `fetch_proxies` carries the `"http://"`
prefix added at parse time. -/
lemma fetch_proxies_prefixed (r : Option String) :
    ∀ p ∈ fetch_proxies r, startsWithStr p "http://" = true := by
  intro p hp
  cases r with
  | none => simp [fetch_proxies] at hp
  | some raw =>
    unfold fetch_proxies at hp
    simp only [List.mem_filterMap] at hp
    obtain ⟨lc, _, hf⟩ := hp
    split at hf
    · cases hf
      exact startsWithStr_append _ _
    · cases hf

/-! ### Claim theorems -/

/-- C1, counterexample.  The claim says an attempt that receives any
HTTP status (e.g. 404) terminates the retry loop immediately with that
status returned verbatim and is never retried.  In the code, a non-2xx
status is raised by urllib as `HTTPError` and handled by the `except
HTTPError` arm, which retries on non-final attempts: with a 404 on the
first attempt and a 200 response on the second, the loop performs 2
attempts and the client receives the second attempt's 200 response, not
the 404. -/
theorem forward_http_error_not_verbatim_cex :
    forward_request
        [AttemptOutcome.httpError 404, AttemptOutcome.ok 200 [] [],
         AttemptOutcome.otherError]
      = (ClientResult.forwarded 200 [] [], 2) ∧ (2 : Nat) ≠ 1 := by
  exact ⟨rfl, by decide⟩

/-- C1, amended.  An attempt whose response is read without exception
terminates the retry loop at once with status, headers and body copied
verbatim; an attempt that receives an HTTP error status (`HTTPError`)
is treated as a failure: on a non-final attempt the loop continues to
the next attempt, and only on the final attempt is the upstream's
status code surfaced to the caller as an error page (not a verbatim
copy of the upstream response). -/
theorem forward_success_returns_http_error_retries
    (s : Nat) (hs : List (String × String)) (b : List Nat) (c : Nat)
    (rest : List AttemptOutcome) (hrest : rest ≠ []) :
    forward_request (AttemptOutcome.ok s hs b :: rest)
        = (ClientResult.forwarded s hs b, 1) ∧
    forward_request (AttemptOutcome.httpError c :: rest)
        = ((forward_request rest).1, (forward_request rest).2 + 1) ∧
    forward_request [AttemptOutcome.httpError c]
        = (ClientResult.errorSent c, 1) := by
  refine ⟨rfl, ?_, rfl⟩
  simp [forward_request, hrest]

/-- C1, witness for the amended theorem at a concrete instance. -/
theorem forward_success_returns_http_error_retries_witness :
    forward_request [AttemptOutcome.ok 200 [] [], AttemptOutcome.otherError]
        = (ClientResult.forwarded 200 [] [], 1) ∧
    forward_request [AttemptOutcome.httpError 404, AttemptOutcome.otherError]
        = ((forward_request [AttemptOutcome.otherError]).1,
           (forward_request [AttemptOutcome.otherError]).2 + 1) ∧
    forward_request [AttemptOutcome.httpError 404]
        = (ClientResult.errorSent 404, 1) :=
  forward_success_returns_http_error_retries 200 [] [] 404
    [AttemptOutcome.otherError] (by decide)

/-- C2.  When the fetch yields a non-empty candidate list but none of
the sampled (first 100) candidates pass validation, `update_proxy_pool`
replaces the pool with the first 50 candidates, unvalidated. -/
theorem update_pool_unvalidated_fallback
    (r : Option String) (validates : String → Bool) (pool : List String)
    (hne : fetch_proxies_from_api r ≠ [])
    (hnone : get_working_proxies validates (fetch_proxies_from_api r) 100 = []) :
    update_proxy_pool r validates pool = (fetch_proxies_from_api r).take 50 := by
  unfold update_proxy_pool
  simp [hne, hnone]

/-- C2, witness: a fetch of one candidate that fails validation leaves
the pool holding that untested candidate. -/
theorem update_pool_unvalidated_fallback_witness :
    update_proxy_pool (some "1.2.3.4:80") (fun _ => false) []
      = (fetch_proxies_from_api (some "1.2.3.4:80")).take 50 :=
  update_pool_unvalidated_fallback (some "1.2.3.4:80") (fun _ => false) []
    (by decide) (by decide)

/-- C3.  When the fetch yields no candidates, `update_proxy_pool`
leaves an already-populated pool untouched: same contents, same
size. -/
theorem update_pool_empty_fetch_noop
    (r : Option String) (validates : String → Bool) (pool : List String)
    (_hpool : pool ≠ []) (hempty : fetch_proxies_from_api r = []) :
    update_proxy_pool r validates pool = pool ∧
    (update_proxy_pool r validates pool).length = pool.length := by
  unfold update_proxy_pool
  simp [hempty]

/-- C3, witness at a concrete populated pool and a failed fetch. -/
theorem update_pool_empty_fetch_noop_witness :
    update_proxy_pool none (fun _ => true) ["http://1.2.3.4:80"]
        = ["http://1.2.3.4:80"] ∧
    (update_proxy_pool none (fun _ => true) ["http://1.2.3.4:80"]).length
        = (["http://1.2.3.4:80"] : List String).length :=
  update_pool_empty_fetch_noop none (fun _ => true) ["http://1.2.3.4:80"]
    (by decide) (by decide)

/-- C4.  When all `max_retries = 3` attempts fail, the loop performs
exactly 3 attempts and the client receives a terminal error whose code
depends on the last failure: 504 for `URLError` (connection errors) and
`TimeoutError`, the upstream's own code for `HTTPError`, and 500 for
any other exception. -/
theorem forward_exhausted_terminal_error
    (o0 o1 o2 : AttemptOutcome)
    (h0 : isFailure o0 = true) (h1 : isFailure o1 = true)
    (h2 : isFailure o2 = true) :
    (forward_request [o0, o1, o2]).2 = max_retries ∧
    ((o2 = AttemptOutcome.urlError ∨ o2 = AttemptOutcome.timeoutError) →
      (forward_request [o0, o1, o2]).1 = ClientResult.errorSent 504) ∧
    (∀ c, o2 = AttemptOutcome.httpError c →
      (forward_request [o0, o1, o2]).1 = ClientResult.errorSent c) ∧
    (o2 = AttemptOutcome.otherError →
      (forward_request [o0, o1, o2]).1 = ClientResult.errorSent 500) := by
  cases o0 <;> cases o1 <;> cases o2 <;>
    simp_all [forward_request, isFailure, max_retries]

/-- C4, witness: three transport failures ending in an upstream
HTTP-level error surface that upstream code after exactly 3 attempts. -/
theorem forward_exhausted_terminal_error_witness :
    (forward_request
        [AttemptOutcome.urlError, AttemptOutcome.timeoutError,
         AttemptOutcome.httpError 502]).2 = max_retries ∧
    (forward_request
        [AttemptOutcome.urlError, AttemptOutcome.timeoutError,
         AttemptOutcome.httpError 502]).1 = ClientResult.errorSent 502 := by
  have h := forward_exhausted_terminal_error AttemptOutcome.urlError
    AttemptOutcome.timeoutError (AttemptOutcome.httpError 502) rfl rfl rfl
  exact ⟨h.1, h.2.2.1 502 rfl⟩

/-- C5, counterexample.  The claim says `https://` is prepended only
when the *host* matches the heuristic host list.  The code checks the
four substrings against the whole lowercased path: for
`example.com/google` the host is `example.com`, which is not in the
list and contains none of its entries, yet the code prepends
`https://`. -/
theorem normalize_url_substring_heuristic_cex :
    normalize_url "example.com/google" = "https://example.com/google" ∧
    hostOf "example.com/google" = "example.com" ∧
    ("example.com" ∈ https_sites ↔ False) ∧
    https_sites.all
        (fun site => !(strContains (lowerStr "example.com") site)) = true := by
  refine ⟨by decide, by decide, by decide, by decide⟩

/-- C5, amended.  For a path with no leading slash and no `http://` or
`https://` prefix, `normalize_url` prepends `https://` when any of the
substrings `google`, `github`, `facebook`, `twitter` occurs anywhere in
the lowercased path (not merely when the host matches the list), and
`http://` otherwise; in particular `example.com` normalizes to
`http://example.com` and `github.com/foo` to `https://github.com/foo`,
and the plain variant `validate_url` prepends `http://` to
`example.com` as well. -/
theorem normalize_url_scheme_defaulting
    (path : String)
    (h1 : startsWithStr path "/" = false)
    (h2 : startsWithStr path "http://" = false)
    (h3 : startsWithStr path "https://" = false) :
    normalize_url path =
        (if https_heuristic path then "https://" ++ path
         else "http://" ++ path) ∧
    normalize_url "example.com" = "http://example.com" ∧
    normalize_url "github.com/foo" = "https://github.com/foo" ∧
    validate_url "example.com" = "http://example.com" := by
  refine ⟨?_, by decide, by decide, by decide⟩
  unfold normalize_url
  simp [h1, h2, h3]

/-- C5, witness for the amended theorem at `example.com`. -/
theorem normalize_url_scheme_defaulting_witness :
    normalize_url "example.com" =
        (if https_heuristic "example.com" then "https://" ++ "example.com"
         else "http://" ++ "example.com") ∧
    normalize_url "example.com" = "http://example.com" ∧
    normalize_url "github.com/foo" = "https://github.com/foo" ∧
    validate_url "example.com" = "http://example.com" :=
  normalize_url_scheme_defaulting "example.com" (by decide) (by decide)
    (by decide)

/-- C6.  `get_random_proxy` returns `none` exactly when the pool is
empty, and any returned proxy is an element of the current pool. -/
theorem pick_none_iff_empty_and_mem (pool : List String) (choiceIx : Nat) :
    (get_random_proxy pool choiceIx = none ↔ pool = []) ∧
    (∀ x, get_random_proxy pool choiceIx = some x → x ∈ pool) := by
  constructor
  · constructor
    · intro h
      by_contra hne
      simp [get_random_proxy, hne] at h
    · intro h
      simp [get_random_proxy, h]
  · intro x hx
    unfold get_random_proxy at hx
    by_cases hpool : pool = []
    · simp [hpool] at hx
    · rw [if_neg hpool] at hx
      have hlen : 0 < pool.length := List.length_pos.mpr hpool
      have hlt : choiceIx % pool.length < pool.length := Nat.mod_lt _ hlen
      rw [List.getD_eq_getElem pool "" hlt] at hx
      cases hx
      exact List.getElem_mem hlt

/-- C6, witness: on a concrete one-element pool the picked proxy is the
pool's element. -/
theorem pick_none_iff_empty_and_mem_witness :
    "http://1.2.3.4:80" ∈ ["http://1.2.3.4:80"] :=
  (pick_none_iff_empty_and_mem ["http://1.2.3.4:80"] 0).2
    "http://1.2.3.4:80" (by decide)

/-- C7.  `fetch_proxies_from_api` never propagates a failure (an
exception yields `[]`), and on a successful response it accepts exactly
the trimmed lines that are non-empty and contain a colon, each recorded
as `"http://" ++ line`; malformed lines contribute nothing. -/
theorem fetch_absorbs_failure_accepts_colon_lines :
    fetch_proxies_from_api none = [] ∧
    ∀ (content p : String),
      p ∈ fetch_proxies_from_api (some content) ↔
        ∃ lc ∈ splitOnNL (trimChars content).toList,
          trimChars (String.mk lc) ≠ "" ∧
          (trimChars (String.mk lc)).toList.contains ':' = true ∧
          p = "http://" ++ trimChars (String.mk lc) := by
  refine ⟨rfl, ?_⟩
  intro content p
  unfold fetch_proxies_from_api
  simp only [List.mem_filterMap]
  constructor
  · rintro ⟨lc, hmem, hf⟩
    split at hf
    · rename_i hc
      cases hf
      exact ⟨lc, hmem, hc.1, hc.2, rfl⟩
    · cases hf
  · rintro ⟨lc, hmem, hne, hcol, hp⟩
    refine ⟨lc, hmem, ?_⟩
    rw [if_pos ⟨hne, hcol⟩, hp]

/-- C7, witness: a well-formed line is accepted; the surrounding
malformed line contributes nothing. -/
theorem fetch_absorbs_failure_accepts_colon_lines_witness :
    "http://1.2.3.4:80" ∈ fetch_proxies_from_api (some " 1.2.3.4:80\nbad") := by
  refine (fetch_absorbs_failure_accepts_colon_lines.2
    " 1.2.3.4:80\nbad" "http://1.2.3.4:80").mpr ?_
  exact ⟨"1.2.3.4:80".toList, by decide, by decide, by decide, by decide⟩

/-- C8.  `validate_proxy` reports `true` exactly when the probe read a
response with status 200; a non-200 status and every exception yield
`false`, and no exception escapes (the function is total). -/
theorem validate_proxy_true_iff_200 (o : ProbeOutcome) :
    validate_proxy o = true ↔ o = ProbeOutcome.response 200 := by
  cases o with
  | response s => simp [validate_proxy]
  | exn => simp [validate_proxy]

/-- C8, witness at status 200. -/
theorem validate_proxy_true_iff_200_witness :
    validate_proxy (ProbeOutcome.response 200) = true :=
  (validate_proxy_true_iff_200 (ProbeOutcome.response 200)).mpr rfl

/-- C9.  Every entry ever present in the proxy pool starts with
`"http://"`: both fetchers prefix every accepted line at parse time,
and `update_proxy_pool` only ever installs fetched candidates, a
validated (filtered) subset of them, or keeps a pool already satisfying
the invariant. -/
theorem pool_entries_http_prefixed
    (r r2 : Option String) (validates : String → Bool) (pool : List String)
    (hpool : ∀ p ∈ pool, startsWithStr p "http://" = true) :
    (∀ p ∈ fetch_proxies_from_api r, startsWithStr p "http://" = true) ∧
    (∀ p ∈ fetch_proxies r2, startsWithStr p "http://" = true) ∧
    (∀ p ∈ update_proxy_pool r validates pool,
      startsWithStr p "http://" = true) := by
  refine ⟨fetch_proxies_from_api_prefixed r, fetch_proxies_prefixed r2, ?_⟩
  intro p hp
  unfold update_proxy_pool at hp
  dsimp only at hp
  split at hp
  · split at hp
    · have h1 : p ∈ (fetch_proxies_from_api r).take 100 :=
        List.mem_of_mem_filter hp
      exact fetch_proxies_from_api_prefixed r p (List.mem_of_mem_take h1)
    · exact fetch_proxies_from_api_prefixed r p (List.mem_of_mem_take hp)
  · exact hpool p hp

/-- C9, witness: a concrete parsed entry carries the prefix. -/
theorem pool_entries_http_prefixed_witness :
    startsWithStr "http://1.2.3.4:80" "http://" = true :=
  (pool_entries_http_prefixed (some "1.2.3.4:80") none (fun _ => true)
    ["http://8.8.8.8:53"] (by decide)).1 "http://1.2.3.4:80" (by decide)

/-- C10.  On a non-empty pool whose entries satisfy the `"http://"`
prefix invariant (which C9 shows every actual pool does),
`get_random_proxy` returns `some` member — never `none` — and the
member is not falsy, so the attempt routes through that proxy and the
second direct-connection fallback branch of `forward_request` is not
taken; a direct route is chosen only when the pool is empty. -/
theorem nonempty_pool_routes_via_proxy
    (pool : List String) (choiceIx : Nat) (hne : pool ≠ [])
    (hinv : ∀ p ∈ pool, startsWithStr p "http://" = true) :
    (∃ p, get_random_proxy pool choiceIx = some p ∧ p ∈ pool ∧
      attempt_route pool choiceIx = Route.viaProxy p) ∧
    (∀ k, attempt_route [] k = Route.direct) := by
  constructor
  · have hlen : 0 < pool.length := List.length_pos.mpr hne
    have hlt : choiceIx % pool.length < pool.length := Nat.mod_lt _ hlen
    refine ⟨pool.getD (choiceIx % pool.length) "", ?_, ?_, ?_⟩
    · simp [get_random_proxy, hne]
    · rw [List.getD_eq_getElem pool "" hlt]
      exact List.getElem_mem hlt
    · have hmem : pool.getD (choiceIx % pool.length) "" ∈ pool := by
        rw [List.getD_eq_getElem pool "" hlt]
        exact List.getElem_mem hlt
      have hnonempty : pool.getD (choiceIx % pool.length) "" ≠ "" :=
        ne_empty_of_http _ (hinv _ hmem)
      unfold attempt_route get_random_proxy
      rw [if_neg hne, if_neg hne]
      exact if_neg hnonempty
  · intro k
    rfl

/-- C10, witness: a concrete one-element pool routes via its proxy. -/
theorem nonempty_pool_routes_via_proxy_witness :
    attempt_route ["http://1.2.3.4:80"] 5 = Route.viaProxy "http://1.2.3.4:80" := by
  obtain ⟨p, _, h2, h3⟩ :=
    (nonempty_pool_routes_via_proxy ["http://1.2.3.4:80"] 5 (by decide)
      (by decide)).1
  rw [List.mem_singleton.mp h2] at h3
  exact h3

end ProxyServer
